import Mathlib

/-!
Verification of the page-to-slide assembly pipeline of `pdf-to-pptx-tool`
(`src/pdf_to_pptx_tool/converter.py`, function `convert_pdf_to_pptx`).

The embedding is a pure function over an explicit environment that captures
the external world the Python function touches:
  * whether a filesystem entry exists at the input path and whether it is a
    regular file (`Path.exists` / `Path.is_file`, converter.py lines 41-44);
  * the result of the rasterization capability `convert_from_path(path, dpi)`
    (line 55), as a function of the `dpi` argument;
  * injected failures for the per-page operations: `image.save` (line 83,
    which runs before the try block, so a mid-write failure leaves the
    partially written temporary file behind and the finally never runs),
    `prs.slides.add_slide` (line 88) and `slide.shapes.add_picture`
    (line 94), so every failure path of the per-page loop is covered;
  * the result of `prs.save(output_pptx)` (line 106): python-pptx opens the
    destination zip in write mode immediately and streams parts into it, so
    a save failure either happens at the open (permission denied, invalid
    path; nothing is created) or mid-write (disk full; a truncated file
    remains at the destination).

The function returns an `Outcome`: the Python-level result (normal return or
raised exception), the content written at the destination path (if any), the
temporary per-page files still on disk afterwards, and a trace of the
externally visible events, in order.
-/

namespace PdfToPptx

/-- An in-memory raster image: one PDF page rendered at the requested dpi.
Only its identity (pixel data) matters to the pipeline. -/
structure Image where
  data : List Nat
deriving DecidableEq, Repr

/-- Python exception values as the converter can raise or receive them.
`runtimeError msg cause` is `RuntimeError(msg)` raised with `from cause`
(converter.py line 61); the other constructors cover the exception types the
converter raises itself plus arbitrary library exceptions. -/
inductive PyExc where
  | fileNotFoundError (msg : String)
  | valueError (msg : String)
  | runtimeError (msg : String) (cause : PyExc)
  | permissionError (msg : String)
  | otherError (name : String) (msg : String)
deriving DecidableEq, Repr

/-- Python `str(e)`: the message of the exception. -/
def PyExc.str : PyExc → String
  | .fileNotFoundError m => m
  | .valueError m => m
  | .runtimeError m _ => m
  | .permissionError m => m
  | .otherError _ m => m

/-- Externally visible events of one conversion run, in order. -/
inductive Event where
  | statCheck
  | rasterCall (dpi : Int)
  | setWidth (w : Int)
  | setHeight (h : Int)
  | imgSave (path : String)
  | addSlide (layout : Nat)
  | addPicture (path : String) (left top width height : Int)
  | unlink (path : String)
  | prsSave
deriving DecidableEq, Repr

/-- A picture shape on a slide: the image content read from the given file
plus its position and size in EMU. -/
structure Picture where
  image : Image
  left : Int
  top : Int
  width : Int
  height : Int
deriving DecidableEq, Repr

/-- One slide: the layout index it was created from and its shapes. -/
structure Slide where
  layoutIdx : Nat
  pictures : List Picture
deriving DecidableEq, Repr

/-- The in-memory presentation container: canvas geometry in EMU and the
ordered slides. -/
structure Prs where
  slideWidth : Int
  slideHeight : Int
  slides : List Slide
deriving DecidableEq, Repr

/-- EMU (English Metric Units) per inch, as in OOXML and python-pptx. -/
def emuPerInch : Int := 914400

/-- python-pptx `Inches(x)` is `Emu(int(x * 914400))`. The argument is given
in thousandths of an inch so the arithmetic stays in exact integers: the
converter only ever calls `Inches(10)`, `Inches(5.625)` and `Inches(0)`,
which are `Inches 10000`, `Inches 5625` and `Inches 0` here, and on those
values the formula below equals python-pptx exactly (the division is
exact). -/
def Inches (thousandths : Int) : Int := thousandths * emuPerInch / 1000

/-- python-pptx `Presentation()` on the default template: canvas 10in x
7.5in, no slides. -/
def defaultPresentation : Prs :=
  { slideWidth := 9144000, slideHeight := 6858000, slides := [] }

/-- What `prs.save(output_pptx)` (converter.py line 106) does to the
destination path. python-pptx opens the destination zip in write mode
immediately and streams parts into it, so a failure either occurs at the
open itself (permission denied, invalid path) and creates nothing, or
occurs partway through the write (disk full) and leaves a truncated file
at the destination. -/
inductive SaveResult where
  | ok
  | failOpen (e : PyExc)
  | failMidWrite (e : PyExc)
deriving DecidableEq, Repr

/-- The file at the destination path, when one exists: the fully serialized
presentation, or the truncated leftover of a save that failed mid-write. -/
inductive DestFile where
  | truncated
  | full (prs : Prs)
deriving DecidableEq, Repr

/-- The external world of one conversion run. `imgSaveFail i` injects a
failure of `image.save(temp_page_i.png, "PNG")` (converter.py line 83):
PIL opens the file, creating it, and then encodes, so the modeled failure
is a mid-write one that leaves the partially written file on disk; the
call sits before the try block, so the finally-unlink never runs for it. -/
structure Env where
  inputExists : Bool
  inputIsFile : Bool
  rasterize : Int → Except PyExc (List Image)
  imgSaveFail : Nat → Option PyExc
  addSlideFail : Nat → Option PyExc
  addPictureFail : Nat → Option PyExc
  saveResult : SaveResult

/-- Read the file at path `p` from the working-directory model. -/
def fsRead (disk : List (String × Image)) (p : String) : Option Image :=
  match disk with
  | [] => none
  | (q, im) :: rest => if q = p then some im else fsRead rest p

/-- Delete every entry at path `p` (Python `Path(p).unlink(missing_ok=True)`). -/
def fsErase (disk : List (String × Image)) (p : String) : List (String × Image) :=
  match disk with
  | [] => []
  | (q, im) :: rest => if q = p then fsErase rest p else (q, im) :: fsErase rest p

/-- Temporary file name for 1-based page `i` (converter.py line 81). -/
def tempPath (i : Nat) : String := "temp_page_" ++ toString i ++ ".png"

/-- State threaded through the per-page loop: the container under
construction, the temporary files on disk, and the event trace so far. -/
structure LoopSt where
  prs : Prs
  disk : List (String × Image)
  trace : List Event

/-- The result of one run: the Python-level result (`.ok ()` is a normal
return), the file at the destination path if any (full presentation or
truncated leftover), the temporary files remaining on disk, and the event
trace. -/
structure Outcome where
  result : Except PyExc Unit
  dest : Option DestFile
  disk : List (String × Image)
  trace : List Event

/-- Input validation, converter.py lines 41-45: `FileNotFoundError` when no
entry exists at the path, `ValueError` when the entry is not a regular
file. -/
def validateInput (exists_ isFile : Bool) (inputPdf : String) : Option PyExc :=
  if !exists_ then
    some (.fileNotFoundError ("Input PDF file not found: " ++ inputPdf))
  else if !isFile then
    some (.valueError ("Input path is not a file: " ++ inputPdf))
  else
    none

/-- The per-page loop, converter.py lines 77-101. For page `i` (1-based) the
image is saved to `temp_page_i.png` (line 83, before the try block: an
injected `imgSaveFail` models the PIL save failing mid-write, leaving the
partially written file on disk with no finally to remove it); inside the
try block a blank slide (layout 6) is appended and the picture placed at
(0,0) with the given width and height; the finally block unlinks the
temporary file on every path of the try block. The other injected failure
points are `prs.slides.add_slide` (before the slide is appended) and
`slide.shapes.add_picture` (after the blank slide is appended, before the
picture is). -/
def embedPages (env : Env) (w h : Int) : Nat → List Image → LoopSt → LoopSt × Option PyExc
  | _, [], st => (st, none)
  | i, img :: rest, st =>
    let temp := tempPath i
    match env.imgSaveFail i with
    | some e =>
        ({ prs := st.prs, disk := (temp, img) :: st.disk,
           trace := st.trace ++ [Event.imgSave temp] }, some e)
    | none =>
      let disk1 := (temp, img) :: st.disk
      let tr1 := st.trace ++ [Event.imgSave temp]
      match env.addSlideFail i with
      | some e =>
          ({ prs := st.prs, disk := fsErase disk1 temp,
             trace := tr1 ++ [Event.unlink temp] }, some e)
      | none =>
        let tr2 := tr1 ++ [Event.addSlide 6]
        match env.addPictureFail i with
        | some e =>
            ({ prs := { st.prs with
                          slides := st.prs.slides ++ [{ layoutIdx := 6, pictures := [] }] },
               disk := fsErase disk1 temp,
               trace := tr2 ++ [Event.unlink temp] }, some e)
        | none =>
          let content := (fsRead disk1 temp).getD { data := [] }
          let pic : Picture :=
            { image := content, left := Inches 0, top := Inches 0, width := w, height := h }
          embedPages env w h (i + 1) rest
            { prs := { st.prs with
                         slides := st.prs.slides ++ [{ layoutIdx := 6, pictures := [pic] }] },
              disk := fsErase disk1 temp,
              trace := tr2 ++ [Event.addPicture temp (Inches 0) (Inches 0) w h,
                               Event.unlink temp] }

/-- The whole conversion, converter.py lines 21-114: validate the input
path, call the rasterization capability (wrapping any of its failures in a
`RuntimeError` carrying the cause, lines 58-61), create the container and
set its canvas to 10in x 5.625in, run the per-page loop, and finally
`prs.save` (a failure there is logged and re-raised unchanged, lines
111-114; a failure at the open leaves nothing at the destination, a
failure mid-write leaves a truncated file). -/
def convert_pdf_to_pptx (env : Env) (inputPdf : String) (dpi : Int) : Outcome :=
  match validateInput env.inputExists env.inputIsFile inputPdf with
  | some err =>
      { result := .error err, dest := none, disk := [], trace := [.statCheck] }
  | none =>
    match env.rasterize dpi with
    | .error e =>
        { result := .error (.runtimeError ("Failed to convert PDF pages: " ++ e.str) e),
          dest := none, disk := [], trace := [.statCheck, .rasterCall dpi] }
    | .ok images =>
      let slide_width := Inches 10000
      let slide_height := Inches 5625
      let prs0 : Prs :=
        { defaultPresentation with slideWidth := slide_width, slideHeight := slide_height }
      let st0 : LoopSt :=
        { prs := prs0, disk := [],
          trace := [.statCheck, .rasterCall dpi, .setWidth slide_width,
                    .setHeight slide_height] }
      match embedPages env slide_width slide_height 1 images st0 with
      | (st, some e) =>
          { result := .error e, dest := none, disk := st.disk, trace := st.trace }
      | (st, none) =>
        let tr := st.trace ++ [Event.prsSave]
        match env.saveResult with
        | .ok =>
            { result := .ok (), dest := some (.full st.prs), disk := st.disk, trace := tr }
        | .failOpen e =>
            { result := .error e, dest := none, disk := st.disk, trace := tr }
        | .failMidWrite e =>
            { result := .error e, dest := some .truncated, disk := st.disk, trace := tr }

/-- The slide produced for one raster page on the success path: blank layout,
one picture at (0,0) stretched to the given width and height. -/
def slideOf (w h : Int) (im : Image) : Slide :=
  { layoutIdx := 6,
    pictures := [{ image := im, left := Inches 0, top := Inches 0, width := w, height := h }] }

/-- The events one successful page iteration appends, for page `i`. -/
def pageTrace (w h : Int) (i : Nat) : List Event :=
  [.imgSave (tempPath i), .addSlide 6,
   .addPicture (tempPath i) (Inches 0) (Inches 0) w h, .unlink (tempPath i)]

/-- The events of `n` consecutive successful page iterations starting at
page `i`. -/
def pagesTrace (w h : Int) : Nat → Nat → List Event
  | _, 0 => []
  | i, n + 1 => pageTrace w h i ++ pagesTrace w h (i + 1) n

/-- The geometry of a slide: its layout index and the position and size of
each of its pictures (everything except pixel content). -/
def slideGeom (s : Slide) : Nat × List (Int × Int × Int × Int) :=
  (s.layoutIdx, s.pictures.map fun pc => (pc.left, pc.top, pc.width, pc.height))

/-- The loop state `convert_pdf_to_pptx` enters the per-page loop with: the
fresh container with its canvas already set, an empty working directory,
and the trace of the events so far. -/
def loopStart (dpi : Int) : LoopSt :=
  { prs := { defaultPresentation with
               slideWidth := Inches 10000, slideHeight := Inches 5625 },
    disk := [],
    trace := [Event.statCheck, Event.rasterCall dpi, Event.setWidth (Inches 10000),
              Event.setHeight (Inches 5625)] }

/-- A two-page document whose rasterization, embedding and save all
succeed. -/
def envOk : Env :=
  { inputExists := true, inputIsFile := true,
    rasterize := fun _ => .ok [{ data := [0] }, { data := [1] }],
    imgSaveFail := fun _ => none,
    addSlideFail := fun _ => none, addPictureFail := fun _ => none,
    saveResult := .ok }

/-- The same two-page document rendered with different pixel output (as a
nondeterministic rasterizer might produce on a second run). -/
def envOk2 : Env :=
  { envOk with rasterize := fun _ => .ok [{ data := [7] }, { data := [8] }] }

/-- No filesystem entry at the source path. -/
def envMissing : Env :=
  { envOk with inputExists := false }

/-- The source path exists but is a directory. -/
def envDir : Env :=
  { envOk with inputIsFile := false }

/-- The rasterization capability fails (e.g. a corrupt, non-PDF file). -/
def envRasterFail : Env :=
  { envOk with
    rasterize := fun _ => .error (.otherError "PDFPageCountError" "Unable to get page count.") }

/-- Embedding the first page fails inside the per-page try block. -/
def envEmbedFail : Env :=
  { envOk with
    addPictureFail := fun i => if i = 1 then some (.otherError "OSError" "embed failed") else none }

/-- Serializing the finished container fails at the open of the
destination: nothing is created there. -/
def envSaveFail : Env :=
  { envOk with saveResult := .failOpen (.permissionError "Permission denied: out.pptx") }

/-- Serializing the finished container fails partway through the write
(disk full): a truncated file is left at the destination. -/
def envSaveMidWrite : Env :=
  { envOk with saveResult := .failMidWrite (.otherError "OSError" "No space left on device") }

/-- Saving the first page's temporary image fails mid-write: the partially
written temp_page_1.png stays on disk and the loop aborts. -/
def envImgSaveFail : Env :=
  { envOk with
    imgSaveFail := fun i =>
      if i = 1 then some (.otherError "OSError" "No space left on device") else none }

/-- A zero-page document: the rasterizer returns an empty page sequence. -/
def envZero : Env :=
  { envOk with rasterize := fun _ => .ok [] }

end PdfToPptx

namespace PdfToPptx

theorem Inches_width : Inches 10000 = 9144000 := by decide

theorem Inches_height : Inches 5625 = 5143500 := by decide

theorem Inches_zero : Inches 0 = 0 := by decide

theorem fsErase_cons_self (p : String) (im : Image) (d : List (String × Image)) :
    fsErase ((p, im) :: d) p = fsErase d p := by
  simp [fsErase]

theorem fsRead_cons_self (p : String) (im : Image) (d : List (String × Image)) :
    fsRead ((p, im) :: d) p = some im := by
  simp [fsRead]

/-- When no `image.save` fails, the loop never leaves a temporary file on
disk: starting from an empty working directory, the directory is empty
again when the loop returns, whether it returns normally or with an error,
for every injection of try-block failures. -/
theorem embedPages_disk_nil (env : Env) (w h : Int) (imgs : List Image)
    (him : ∀ i, env.imgSaveFail i = none) :
    ∀ (i : Nat) (st : LoopSt), st.disk = [] →
      ((embedPages env w h i imgs st).1).disk = [] := by
  induction imgs with
  | nil => intro i st hd; simpa [embedPages] using hd
  | cons img rest ih =>
    intro i st hd
    simp only [embedPages, him i, hd]
    cases hs : env.addSlideFail i with
    | some e => simp [fsErase]
    | none =>
      cases hp : env.addPictureFail i with
      | some e => simp [fsErase]
      | none => exact ih (i + 1) _ (by simp [fsErase])

/-- Appending a block of events whose only `imgSave` is for `temp` and which
contains `unlink temp` preserves the everything-saved-is-unlinked trace
property. -/
theorem trace_step_inv (tr evs : List Event) (temp : String)
    (hinv : ∀ q, Event.imgSave q ∈ tr → Event.unlink q ∈ tr)
    (hevs_img : ∀ q, Event.imgSave q ∈ evs → q = temp)
    (hevs_unl : Event.unlink temp ∈ evs) :
    ∀ q, Event.imgSave q ∈ tr ++ evs → Event.unlink q ∈ tr ++ evs := by
  intro q hq
  rcases List.mem_append.mp hq with hq | hq
  · exact List.mem_append_left _ (hinv q hq)
  · exact (hevs_img q hq) ▸ List.mem_append_right _ hevs_unl

/-- When no `image.save` fails, every temporary file the loop creates it
also unlinks: the trace property that each `imgSave` has a matching
`unlink` is preserved by the loop, for every injection of try-block
failures. -/
theorem embedPages_imgSave_unlink (env : Env) (w h : Int) (imgs : List Image)
    (him : ∀ i, env.imgSaveFail i = none) :
    ∀ (i : Nat) (st : LoopSt),
      (∀ q, Event.imgSave q ∈ st.trace → Event.unlink q ∈ st.trace) →
      ∀ q, Event.imgSave q ∈ ((embedPages env w h i imgs st).1).trace →
        Event.unlink q ∈ ((embedPages env w h i imgs st).1).trace := by
  induction imgs with
  | nil => intro i st hinv q; simpa [embedPages] using hinv q
  | cons img rest ih =>
    intro i st hinv q
    simp only [embedPages, him i]
    cases hs : env.addSlideFail i with
    | some e =>
      dsimp only
      simp only [List.append_assoc]
      refine trace_step_inv _ _ (tempPath i) hinv ?_ ?_ q
      · intro q' h; simp at h; exact h
      · simp
    | none =>
      cases hp : env.addPictureFail i with
      | some e =>
        dsimp only
        simp only [List.append_assoc]
        refine trace_step_inv _ _ (tempPath i) hinv ?_ ?_ q
        · intro q' h; simp at h; exact h
        · simp
      | none =>
        dsimp only
        refine ih (i + 1) _ ?_ q
        intro q' hq'
        simp only [List.append_assoc] at hq' ⊢
        refine trace_step_inv _ _ (tempPath i) hinv ?_ ?_ q' hq'
        · intro q'' h; simp at h; exact h
        · simp

/-- Full characterization of the loop when no per-page operation fails:
one slide per image, in order, each holding that image full-bleed; the
working directory is left empty and the trace extends by the per-page
events. -/
theorem embedPages_ok (env : Env) (w h : Int)
    (him : ∀ i, env.imgSaveFail i = none)
    (hsl : ∀ i, env.addSlideFail i = none) (hpc : ∀ i, env.addPictureFail i = none)
    (imgs : List Image) :
    ∀ (i : Nat) (st : LoopSt), st.disk = [] →
      embedPages env w h i imgs st =
        ({ prs := { slideWidth := st.prs.slideWidth, slideHeight := st.prs.slideHeight,
                    slides := st.prs.slides ++ imgs.map (slideOf w h) },
           disk := [], trace := st.trace ++ pagesTrace w h i imgs.length }, none) := by
  induction imgs with
  | nil =>
    intro i st hd
    obtain ⟨⟨pw, ph, ps⟩, d, tr⟩ := st
    cases hd
    simp [embedPages, pagesTrace]
  | cons img rest ih =>
    intro i st hd
    simp only [embedPages, him i, hsl i, hpc i]
    rw [ih (i + 1) _ (by simp [hd, fsErase])]
    simp [hd, fsErase, fsRead, slideOf, pagesTrace, pageTrace, List.append_assoc]

/-- Converse direction for an arbitrary environment: whenever the loop
returns without error it has embedded every image, in order, full-bleed,
and left the working directory empty. -/
theorem embedPages_eq_none (env : Env) (w h : Int) (imgs : List Image) :
    ∀ (i : Nat) (st st' : LoopSt), st.disk = [] →
      embedPages env w h i imgs st = (st', none) →
      st' = { prs := { slideWidth := st.prs.slideWidth, slideHeight := st.prs.slideHeight,
                       slides := st.prs.slides ++ imgs.map (slideOf w h) },
              disk := [], trace := st.trace ++ pagesTrace w h i imgs.length } := by
  induction imgs with
  | nil =>
    intro i st st' hd heq
    simp only [embedPages, Prod.mk.injEq] at heq
    obtain ⟨⟨pw, ph, ps⟩, d, tr⟩ := st
    cases hd
    rw [← heq.1]
    simp [pagesTrace]
  | cons img rest ih =>
    intro i st st' hd heq
    simp only [embedPages] at heq
    cases hi : env.imgSaveFail i with
    | some e => rw [hi] at heq; simp at heq
    | none =>
      rw [hi] at heq
      cases hs : env.addSlideFail i with
      | some e => rw [hs] at heq; simp at heq
      | none =>
        rw [hs] at heq
        cases hp : env.addPictureFail i with
        | some e => rw [hp] at heq; simp at heq
        | none =>
          rw [hp] at heq
          dsimp only at heq
          have h2 := ih (i + 1) _ st' (by simp [hd, fsErase]) heq
          rw [h2]
          simp [hd, fsErase, fsRead, slideOf, pagesTrace, pageTrace,
            List.append_assoc]

/-- The loop only appends to the trace. -/
theorem embedPages_trace_mono (env : Env) (w h : Int) (imgs : List Image) :
    ∀ (i : Nat) (st : LoopSt), ∃ t,
      ((embedPages env w h i imgs st).1).trace = st.trace ++ t := by
  induction imgs with
  | nil => intro i st; exact ⟨[], by simp [embedPages]⟩
  | cons img rest ih =>
    intro i st
    simp only [embedPages]
    cases hi : env.imgSaveFail i with
    | some e => exact ⟨[Event.imgSave (tempPath i)], by simp⟩
    | none =>
      cases hs : env.addSlideFail i with
      | some e =>
        exact ⟨[Event.imgSave (tempPath i), Event.unlink (tempPath i)],
          by simp [List.append_assoc]⟩
      | none =>
        cases hp : env.addPictureFail i with
        | some e =>
          exact ⟨[Event.imgSave (tempPath i), Event.addSlide 6,
                  Event.unlink (tempPath i)],
            by simp [List.append_assoc]⟩
        | none =>
          obtain ⟨t, ht⟩ := ih (i + 1)
            { prs := { slideWidth := st.prs.slideWidth, slideHeight := st.prs.slideHeight,
                       slides := st.prs.slides ++
                         [{ layoutIdx := 6,
                            pictures := [{ image := (fsRead ((tempPath i, img) :: st.disk)
                                             (tempPath i)).getD { data := [] },
                                           left := Inches 0, top := Inches 0,
                                           width := w, height := h }] }] },
              disk := fsErase ((tempPath i, img) :: st.disk) (tempPath i),
              trace := st.trace ++ [Event.imgSave (tempPath i)] ++ [Event.addSlide 6] ++
                       [Event.addPicture (tempPath i) (Inches 0) (Inches 0) w h,
                        Event.unlink (tempPath i)] }
          refine ⟨[Event.imgSave (tempPath i)] ++ [Event.addSlide 6] ++
                  [Event.addPicture (tempPath i) (Inches 0) (Inches 0) w h,
                   Event.unlink (tempPath i)] ++ t, ?_⟩
          dsimp only
          rw [ht]
          simp [List.append_assoc]

/-- The container, the working directory and the returned error of the loop
do not depend on the trace accumulated so far. -/
theorem embedPages_trace_indep (env : Env) (w h : Int) (imgs : List Image) :
    ∀ (i : Nat) (st1 st2 : LoopSt), st1.prs = st2.prs → st1.disk = st2.disk →
      ((embedPages env w h i imgs st1).1).prs = ((embedPages env w h i imgs st2).1).prs ∧
      ((embedPages env w h i imgs st1).1).disk = ((embedPages env w h i imgs st2).1).disk ∧
      (embedPages env w h i imgs st1).2 = (embedPages env w h i imgs st2).2 := by
  induction imgs with
  | nil => intro i st1 st2 hp hd; simpa [embedPages] using ⟨hp, hd⟩
  | cons img rest ih =>
    intro i st1 st2 hprs hd
    simp only [embedPages]
    cases hi : env.imgSaveFail i with
    | some e => simp [hprs, hd]
    | none =>
      cases hs : env.addSlideFail i with
      | some e => simp [hprs, hd]
      | none =>
        cases hp : env.addPictureFail i with
        | some e => simp [hprs, hd]
        | none =>
          dsimp only
          exact ih (i + 1) _ _ (by simp [hprs, hd]) (by simp [hd])

/-- Full characterization of a successful conversion: validation passed,
the rasterizer returned `imgs`, every page embedded and the save succeeded.
The destination holds one slide per raster page, in page order, on the
fixed 10in by 5.625in canvas, every picture full-bleed at the origin. -/
theorem convert_ok (env : Env) (p : String) (dpi : Int) (imgs : List Image)
    (he : env.inputExists = true) (hf : env.inputIsFile = true)
    (hr : env.rasterize dpi = .ok imgs)
    (him : ∀ i, env.imgSaveFail i = none)
    (hsl : ∀ i, env.addSlideFail i = none) (hpc : ∀ i, env.addPictureFail i = none)
    (hsv : env.saveResult = .ok) :
    convert_pdf_to_pptx env p dpi =
      { result := .ok (),
        dest := some (.full { slideWidth := Inches 10000, slideHeight := Inches 5625,
                              slides := imgs.map (slideOf (Inches 10000) (Inches 5625)) }),
        disk := [],
        trace := [Event.statCheck, Event.rasterCall dpi, Event.setWidth (Inches 10000),
                  Event.setHeight (Inches 5625)] ++
                 pagesTrace (Inches 10000) (Inches 5625) 1 imgs.length ++
                 [Event.prsSave] } := by
  unfold convert_pdf_to_pptx
  rw [he, hf]
  simp only [validateInput, Bool.not_true, Bool.false_eq_true, if_false, hr]
  try dsimp only
  rw [embedPages_ok env (Inches 10000) (Inches 5625) him hsl hpc imgs 1 _ rfl]
  rw [hsv]
  simp [defaultPresentation, List.append_assoc]

/-- The loop never emits the save event. -/
theorem embedPages_no_prsSave (env : Env) (w h : Int) (imgs : List Image) :
    ∀ (i : Nat) (st : LoopSt), Event.prsSave ∉ st.trace →
      Event.prsSave ∉ ((embedPages env w h i imgs st).1).trace := by
  induction imgs with
  | nil => intro i st hst; simpa [embedPages] using hst
  | cons img rest ih =>
    intro i st hst
    simp only [embedPages]
    cases hi : env.imgSaveFail i with
    | some e => simp [hst]
    | none =>
      cases hs : env.addSlideFail i with
      | some e => simp [hst]
      | none =>
        cases hp : env.addPictureFail i with
        | some e => simp [hst]
        | none =>
          dsimp only
          exact ih (i + 1) _ (by simp [hst])

/-- Geometry of the slides produced on the success path: constant across
pages, independent of the image contents. -/
theorem map_slideGeom_slideOf (w h : Int) (imgs : List Image) :
    (imgs.map (slideOf w h)).map slideGeom =
      List.replicate imgs.length (6, [(Inches 0, Inches 0, w, h)]) := by
  induction imgs with
  | nil => rfl
  | cons img rest ih => simp [slideOf, slideGeom, List.replicate, ih]

/-- C1: For every successful conversion, the number of slides in the output
presentation equals the number of raster pages produced from the input PDF,
and slide i holds the image of page i: the output slide list is exactly the
page list mapped to full-bleed slides, in page order, no page skipped,
dropped, or reordered. -/
theorem slides_match_pages (env : Env) (p : String) (dpi : Int) (imgs : List Image)
    (he : env.inputExists = true) (hf : env.inputIsFile = true)
    (hr : env.rasterize dpi = .ok imgs)
    (him : ∀ i, env.imgSaveFail i = none)
    (hsl : ∀ i, env.addSlideFail i = none) (hpc : ∀ i, env.addPictureFail i = none)
    (hsv : env.saveResult = .ok) :
    ∃ prs, (convert_pdf_to_pptx env p dpi).dest = some (DestFile.full prs) ∧
      prs.slides.length = imgs.length ∧
      prs.slides = imgs.map (slideOf (Inches 10000) (Inches 5625)) ∧
      ∀ k, (hk : k < imgs.length) → ∃ hk2 : k < prs.slides.length,
        (prs.slides.get ⟨k, hk2⟩).pictures.map Picture.image = [imgs.get ⟨k, hk⟩] := by
  rw [convert_ok env p dpi imgs he hf hr him hsl hpc hsv]
  refine ⟨_, rfl, by simp, rfl, ?_⟩
  intro k hk
  refine ⟨by simpa using hk, ?_⟩
  simp [slideOf]

/-- C1 witness: a concrete successful two-page conversion. -/
theorem slides_match_pages_witness :
    ∃ prs, (convert_pdf_to_pptx envOk "in.pdf" 200).dest = some (DestFile.full prs) ∧
      prs.slides.length = [Image.mk [0], Image.mk [1]].length ∧
      prs.slides = [Image.mk [0], Image.mk [1]].map (slideOf (Inches 10000) (Inches 5625)) ∧
      ∀ k, (hk : k < [Image.mk [0], Image.mk [1]].length) → ∃ hk2 : k < prs.slides.length,
        (prs.slides.get ⟨k, hk2⟩).pictures.map Picture.image =
          [[Image.mk [0], Image.mk [1]].get ⟨k, hk⟩] :=
  slides_match_pages envOk "in.pdf" 200 [Image.mk [0], Image.mk [1]]
    rfl rfl rfl (fun _ => rfl) (fun _ => rfl) (fun _ => rfl) rfl

/-- C2: Input validation fails with `FileNotFoundError` exactly when no
filesystem entry exists at the source path, with `ValueError` exactly when
the entry exists but is not a regular file, succeeds exactly when the entry
is a regular file, and a validation failure aborts the run before any
rasterization call appears in the trace. -/
theorem validation_errors_iff (e f : Bool) (p : String) (env : Env) (dpi : Int) :
    ((∃ m, validateInput e f p = some (.fileNotFoundError m)) ↔ e = false) ∧
    ((∃ m, validateInput e f p = some (.valueError m)) ↔ (e = true ∧ f = false)) ∧
    (validateInput e f p = none ↔ (e = true ∧ f = true)) ∧
    (∀ err, validateInput env.inputExists env.inputIsFile p = some err →
      (convert_pdf_to_pptx env p dpi).result = .error err ∧
      ∀ d, Event.rasterCall d ∉ (convert_pdf_to_pptx env p dpi).trace) := by
  refine ⟨?_, ?_, ?_, ?_⟩
  · cases e <;> cases f <;> simp [validateInput]
  · cases e <;> cases f <;> simp [validateInput]
  · cases e <;> cases f <;> simp [validateInput]
  · intro err herr
    unfold convert_pdf_to_pptx
    rw [herr]
    exact ⟨rfl, by simp⟩

/-- C2 witness: a missing source path yields the not-found error and no
rasterization call. -/
theorem validation_errors_iff_witness :
    (convert_pdf_to_pptx envMissing "in.pdf" 200).result =
      .error (.fileNotFoundError ("Input PDF file not found: " ++ "in.pdf")) ∧
    ∀ d, Event.rasterCall d ∉ (convert_pdf_to_pptx envMissing "in.pdf" 200).trace :=
  (validation_errors_iff false true "in.pdf" envMissing 200).2.2.2
    (.fileNotFoundError ("Input PDF file not found: " ++ "in.pdf")) rfl

/-- C3: Every failure of the rasterization capability, whatever its concrete
exception value, is re-signaled as exactly one `RuntimeError` wrapper that
carries the underlying cause, and no output file is produced. -/
theorem raster_failure_wrapped (env : Env) (p : String) (dpi : Int) (e : PyExc)
    (he : env.inputExists = true) (hf : env.inputIsFile = true)
    (hr : env.rasterize dpi = .error e) :
    (convert_pdf_to_pptx env p dpi).result =
      .error (.runtimeError ("Failed to convert PDF pages: " ++ e.str) e) ∧
    (convert_pdf_to_pptx env p dpi).dest = none := by
  unfold convert_pdf_to_pptx
  rw [he, hf]
  simp [validateInput, hr]

/-- C3 witness: a concrete library failure surfaces as the wrapper. -/
theorem raster_failure_wrapped_witness :
    (convert_pdf_to_pptx envRasterFail "in.pdf" 200).result =
      .error (.runtimeError
        ("Failed to convert PDF pages: " ++
          (PyExc.otherError "PDFPageCountError" "Unable to get page count.").str)
        (.otherError "PDFPageCountError" "Unable to get page count.")) ∧
    (convert_pdf_to_pptx envRasterFail "in.pdf" 200).dest = none :=
  raster_failure_wrapped envRasterFail "in.pdf" 200
    (.otherError "PDFPageCountError" "Unable to get page count.") rfl rfl rfl

/-- C4: The canvas geometry is set to 10in by 5.625in before any slide is
added (the set-width and set-height events precede every add-slide event in
the trace), and every slide's single image sits at (0,0) with width and
height equal to the canvas dimensions, for every page list and every dpi. -/
theorem canvas_fixed_full_bleed (env : Env) (p : String) (dpi : Int) (imgs : List Image)
    (he : env.inputExists = true) (hf : env.inputIsFile = true)
    (hr : env.rasterize dpi = .ok imgs)
    (him : ∀ i, env.imgSaveFail i = none)
    (hsl : ∀ i, env.addSlideFail i = none) (hpc : ∀ i, env.addPictureFail i = none)
    (hsv : env.saveResult = .ok) :
    ∃ prs, (convert_pdf_to_pptx env p dpi).dest = some (DestFile.full prs) ∧
      prs.slideWidth = 9144000 ∧ prs.slideHeight = 5143500 ∧
      (∀ s ∈ prs.slides,
        s.pictures.map (fun pc => (pc.left, pc.top, pc.width, pc.height)) =
          [(0, 0, prs.slideWidth, prs.slideHeight)]) ∧
      ∃ t, (convert_pdf_to_pptx env p dpi).trace =
          [Event.statCheck, Event.rasterCall dpi, Event.setWidth prs.slideWidth,
           Event.setHeight prs.slideHeight] ++ t ∧
        ∀ l, Event.addSlide l ∉
          [Event.statCheck, Event.rasterCall dpi, Event.setWidth prs.slideWidth,
           Event.setHeight prs.slideHeight] := by
  rw [convert_ok env p dpi imgs he hf hr him hsl hpc hsv]
  refine ⟨_, rfl, Inches_width, Inches_height, ?_, ?_⟩
  · intro s hs
    obtain ⟨im, _, rfl⟩ := List.mem_map.mp hs
    simp [slideOf, Inches_zero]
  · refine ⟨pagesTrace (Inches 10000) (Inches 5625) 1 imgs.length ++ [Event.prsSave], ?_, ?_⟩
    · simp [List.append_assoc]
    · intro l
      simp

/-- C4 witness: concrete geometry of a successful two-page conversion. -/
theorem canvas_fixed_full_bleed_witness :
    ∃ prs, (convert_pdf_to_pptx envOk "in.pdf" 200).dest = some (DestFile.full prs) ∧
      prs.slideWidth = 9144000 ∧ prs.slideHeight = 5143500 ∧
      (∀ s ∈ prs.slides,
        s.pictures.map (fun pc => (pc.left, pc.top, pc.width, pc.height)) =
          [(0, 0, prs.slideWidth, prs.slideHeight)]) ∧
      ∃ t, (convert_pdf_to_pptx envOk "in.pdf" 200).trace =
          [Event.statCheck, Event.rasterCall 200, Event.setWidth prs.slideWidth,
           Event.setHeight prs.slideHeight] ++ t ∧
        ∀ l, Event.addSlide l ∉
          [Event.statCheck, Event.rasterCall 200, Event.setWidth prs.slideWidth,
           Event.setHeight prs.slideHeight] :=
  canvas_fixed_full_bleed envOk "in.pdf" 200 [Image.mk [0], Image.mk [1]]
    rfl rfl rfl (fun _ => rfl) (fun _ => rfl) (fun _ => rfl) rfl

/-- C5 (amended): Temporary files are cleaned up on the success path and
on every failure path of the try block: provided each page's `image.save`
completes, no temporary per-page file survives the conversion, whatever
else fails, and every temporary-image save event in the trace has a
matching unlink event. A failure of `image.save` itself runs before the
try/finally (converter.py line 83) and can leave that page's partially
written file behind; see the counterexample. -/
theorem no_temp_file_survives (env : Env) (p : String) (dpi : Int)
    (him : ∀ i, env.imgSaveFail i = none) :
    (convert_pdf_to_pptx env p dpi).disk = [] ∧
    ∀ q, Event.imgSave q ∈ (convert_pdf_to_pptx env p dpi).trace →
      Event.unlink q ∈ (convert_pdf_to_pptx env p dpi).trace := by
  unfold convert_pdf_to_pptx
  cases hv : validateInput env.inputExists env.inputIsFile p with
  | some err => exact ⟨rfl, by simp⟩
  | none =>
    cases hr : env.rasterize dpi with
    | error e => exact ⟨rfl, by simp⟩
    | ok imgs =>
      have hdisk := embedPages_disk_nil env (Inches 10000) (Inches 5625) imgs him 1
        { prs := { defaultPresentation with
                     slideWidth := Inches 10000, slideHeight := Inches 5625 },
          disk := [],
          trace := [Event.statCheck, Event.rasterCall dpi, Event.setWidth (Inches 10000),
                    Event.setHeight (Inches 5625)] } rfl
      have htr := embedPages_imgSave_unlink env (Inches 10000) (Inches 5625) imgs him 1
        { prs := { defaultPresentation with
                     slideWidth := Inches 10000, slideHeight := Inches 5625 },
          disk := [],
          trace := [Event.statCheck, Event.rasterCall dpi, Event.setWidth (Inches 10000),
                    Event.setHeight (Inches 5625)] } (by intro q hq; simp at hq)
      rcases hE : embedPages env (Inches 10000) (Inches 5625) 1 imgs
        { prs := { defaultPresentation with
                     slideWidth := Inches 10000, slideHeight := Inches 5625 },
          disk := [],
          trace := [Event.statCheck, Event.rasterCall dpi, Event.setWidth (Inches 10000),
                    Event.setHeight (Inches 5625)] } with ⟨st, oe⟩
      rw [hE] at hdisk htr
      try dsimp only
      try rw [hE]
      cases oe with
      | some e => exact ⟨hdisk, htr⟩
      | none =>
        cases hsv : env.saveResult with
        | ok =>
          refine ⟨hdisk, ?_⟩
          intro q hq
          rcases List.mem_append.mp hq with hq | hq
          · exact List.mem_append_left _ (htr q hq)
          · simp at hq
        | failOpen e =>
          refine ⟨hdisk, ?_⟩
          intro q hq
          rcases List.mem_append.mp hq with hq | hq
          · exact List.mem_append_left _ (htr q hq)
          · simp at hq
        | failMidWrite e =>
          refine ⟨hdisk, ?_⟩
          intro q hq
          rcases List.mem_append.mp hq with hq | hq
          · exact List.mem_append_left _ (htr q hq)
          · simp at hq

/-- C5 counterexample: when `image.save` for page 1 fails mid-write
(it runs at converter.py line 83, before the try block, so the finally
never executes for it), the partially written temp_page_1.png survives the
conversion: the file was created and never unlinked. -/
theorem no_temp_file_survives_counterexample :
    (convert_pdf_to_pptx envImgSaveFail "in.pdf" 200).disk =
      [(tempPath 1, { data := [0] })] ∧
    Event.imgSave (tempPath 1) ∈ (convert_pdf_to_pptx envImgSaveFail "in.pdf" 200).trace ∧
    Event.unlink (tempPath 1) ∉ (convert_pdf_to_pptx envImgSaveFail "in.pdf" 200).trace := by
  exact ⟨by decide, by decide, by decide⟩

/-- C5 witness: with an injected embedding failure on page 1 (and every
image.save completing), the temporary file of page 1 was created and
unlinked and the directory ends empty. -/
theorem no_temp_file_survives_witness :
    (convert_pdf_to_pptx envEmbedFail "in.pdf" 200).disk = [] ∧
    Event.unlink (tempPath 1) ∈ (convert_pdf_to_pptx envEmbedFail "in.pdf" 200).trace :=
  ⟨(no_temp_file_survives envEmbedFail "in.pdf" 200 (fun _ => rfl)).1,
   (no_temp_file_survives envEmbedFail "in.pdf" 200 (fun _ => rfl)).2
     (tempPath 1) (by decide)⟩

/-- C6: The destination is written only after every page has been
embedded: if the save call never happens, nothing is at the destination;
a failure during validation, rasterization or per-page assembly never
issues the save call and leaves nothing at the destination; and any file
at the destination - even the truncated leftover of a failed save -
implies the rasterizer succeeded and every raster page was embedded, in
order, before the save was attempted. -/
theorem no_output_before_full_assembly (env : Env) (p : String) (dpi : Int) :
    (Event.prsSave ∉ (convert_pdf_to_pptx env p dpi).trace →
      (convert_pdf_to_pptx env p dpi).dest = none) ∧
    (validateInput env.inputExists env.inputIsFile p ≠ none →
      (convert_pdf_to_pptx env p dpi).dest = none ∧
      Event.prsSave ∉ (convert_pdf_to_pptx env p dpi).trace) ∧
    (∀ e, env.rasterize dpi = .error e →
      (convert_pdf_to_pptx env p dpi).dest = none ∧
      Event.prsSave ∉ (convert_pdf_to_pptx env p dpi).trace) ∧
    (∀ imgs st e, env.rasterize dpi = .ok imgs →
      embedPages env (Inches 10000) (Inches 5625) 1 imgs (loopStart dpi) = (st, some e) →
      (convert_pdf_to_pptx env p dpi).dest = none ∧
      Event.prsSave ∉ (convert_pdf_to_pptx env p dpi).trace) ∧
    (∀ c, (convert_pdf_to_pptx env p dpi).dest = some c →
      ∃ imgs st, env.rasterize dpi = .ok imgs ∧
        embedPages env (Inches 10000) (Inches 5625) 1 imgs (loopStart dpi) = (st, none) ∧
        st.prs.slides = imgs.map (slideOf (Inches 10000) (Inches 5625))) := by
  unfold convert_pdf_to_pptx
  cases hv : validateInput env.inputExists env.inputIsFile p with
  | some err =>
    exact ⟨fun _ => rfl, fun _ => ⟨rfl, by simp⟩, fun e h => ⟨rfl, by simp⟩,
      fun imgs st e h1 h2 => ⟨rfl, by simp⟩, fun c hc => Option.noConfusion hc⟩
  | none =>
    cases hr : env.rasterize dpi with
    | error e0 =>
      refine ⟨fun _ => rfl, fun hne => absurd rfl hne, fun e h => ⟨rfl, by simp⟩,
        ?_, fun c hc => Option.noConfusion hc⟩
      intro imgs st e h1 h2
      exact Except.noConfusion h1
    | ok imgs0 =>
      have hnosave := embedPages_no_prsSave env (Inches 10000) (Inches 5625) imgs0 1
        { prs := { defaultPresentation with
                     slideWidth := Inches 10000, slideHeight := Inches 5625 },
          disk := [],
          trace := [Event.statCheck, Event.rasterCall dpi, Event.setWidth (Inches 10000),
                    Event.setHeight (Inches 5625)] } (by simp)
      have hchar := embedPages_eq_none env (Inches 10000) (Inches 5625) imgs0 1
        { prs := { defaultPresentation with
                     slideWidth := Inches 10000, slideHeight := Inches 5625 },
          disk := [],
          trace := [Event.statCheck, Event.rasterCall dpi, Event.setWidth (Inches 10000),
                    Event.setHeight (Inches 5625)] }
      rcases hE : embedPages env (Inches 10000) (Inches 5625) 1 imgs0
        { prs := { defaultPresentation with
                     slideWidth := Inches 10000, slideHeight := Inches 5625 },
          disk := [],
          trace := [Event.statCheck, Event.rasterCall dpi, Event.setWidth (Inches 10000),
                    Event.setHeight (Inches 5625)] } with ⟨st0, oe⟩
      rw [hE] at hnosave
      try dsimp only
      try rw [hE]
      cases oe with
      | some e1 =>
        refine ⟨fun _ => rfl, fun hne => absurd rfl hne, fun e h => Except.noConfusion h,
          ?_, fun c hc => Option.noConfusion hc⟩
        intro imgs st e h1 h2
        exact ⟨rfl, hnosave⟩
      | none =>
        have hst := hchar st0 rfl hE
        cases hsv : env.saveResult with
        | ok =>
          refine ⟨?_, fun hne => absurd rfl hne, fun e h => Except.noConfusion h, ?_, ?_⟩
          · intro hns
            exact absurd (List.mem_append_right _ (by simp)) hns
          · intro imgs st e h1 h2
            injection h1 with h1e
            subst h1e
            unfold loopStart at h2
            rw [hE] at h2
            simp at h2
          · intro c hc
            refine ⟨imgs0, st0, rfl, ?_, ?_⟩
            · unfold loopStart
              exact hE
            · rw [hst]
              simp [defaultPresentation]
        | failOpen e1 =>
          refine ⟨fun _ => rfl, fun hne => absurd rfl hne,
            fun e h => Except.noConfusion h, ?_, fun c hc => Option.noConfusion hc⟩
          intro imgs st e h1 h2
          injection h1 with h1e
          subst h1e
          unfold loopStart at h2
          rw [hE] at h2
          simp at h2
        | failMidWrite e1 =>
          refine ⟨?_, fun hne => absurd rfl hne, fun e h => Except.noConfusion h, ?_, ?_⟩
          · intro hns
            exact absurd (List.mem_append_right _ (by simp)) hns
          · intro imgs st e h1 h2
            injection h1 with h1e
            subst h1e
            unfold loopStart at h2
            rw [hE] at h2
            simp at h2
          · intro c hc
            refine ⟨imgs0, st0, rfl, ?_, ?_⟩
            · unfold loopStart
              exact hE
            · rw [hst]
              simp [defaultPresentation]

/-- C6 witness: a run failing at validation leaves no destination file and
never issues the save call. -/
theorem no_output_before_full_assembly_witness :
    (convert_pdf_to_pptx envMissing "in.pdf" 200).dest = none ∧
    Event.prsSave ∉ (convert_pdf_to_pptx envMissing "in.pdf" 200).trace :=
  (no_output_before_full_assembly envMissing "in.pdf" 200).2.1 (by decide)

/-- C7 (amended): If serializing the finished container fails, the
converter logs and re-raises the underlying exception unchanged, so the
operation fails with exactly that cause; the save is only ever attempted
after every page has been embedded. A failure at the open of the
destination (permission denied, invalid path) creates nothing there, but a
failure partway through the write (disk full) leaves a truncated file at
the destination - the claim that no partial file is ever left does not
hold on that path (see the counterexample). -/
theorem save_failure_propagates_cause (env : Env) (p : String) (dpi : Int)
    (imgs : List Image) (e : PyExc)
    (he : env.inputExists = true) (hf : env.inputIsFile = true)
    (hr : env.rasterize dpi = .ok imgs)
    (him : ∀ i, env.imgSaveFail i = none)
    (hsl : ∀ i, env.addSlideFail i = none) (hpc : ∀ i, env.addPictureFail i = none) :
    (env.saveResult = .failOpen e →
      (convert_pdf_to_pptx env p dpi).result = .error e ∧
      (convert_pdf_to_pptx env p dpi).dest = none) ∧
    (env.saveResult = .failMidWrite e →
      (convert_pdf_to_pptx env p dpi).result = .error e ∧
      (convert_pdf_to_pptx env p dpi).dest = some .truncated) ∧
    (convert_pdf_to_pptx env p dpi).trace =
      [Event.statCheck, Event.rasterCall dpi, Event.setWidth (Inches 10000),
       Event.setHeight (Inches 5625)] ++
      pagesTrace (Inches 10000) (Inches 5625) 1 imgs.length ++ [Event.prsSave] := by
  refine ⟨?_, ?_, ?_⟩
  · intro hsv
    unfold convert_pdf_to_pptx
    rw [he, hf]
    simp only [validateInput, Bool.not_true, Bool.false_eq_true, if_false, hr]
    try dsimp only
    rw [embedPages_ok env (Inches 10000) (Inches 5625) him hsl hpc imgs 1 _ rfl]
    rw [hsv]
    exact ⟨rfl, rfl⟩
  · intro hsv
    unfold convert_pdf_to_pptx
    rw [he, hf]
    simp only [validateInput, Bool.not_true, Bool.false_eq_true, if_false, hr]
    try dsimp only
    rw [embedPages_ok env (Inches 10000) (Inches 5625) him hsl hpc imgs 1 _ rfl]
    rw [hsv]
    exact ⟨rfl, rfl⟩
  · unfold convert_pdf_to_pptx
    rw [he, hf]
    simp only [validateInput, Bool.not_true, Bool.false_eq_true, if_false, hr]
    try dsimp only
    rw [embedPages_ok env (Inches 10000) (Inches 5625) him hsl hpc imgs 1 _ rfl]
    cases env.saveResult <;> simp [List.append_assoc]

/-- C7 counterexample: a disk-full failure partway through the save leaves
a truncated file at the destination while the run fails with the
underlying cause, refuting the claim that no partial file is ever left. -/
theorem save_failure_propagates_cause_counterexample :
    (convert_pdf_to_pptx envSaveMidWrite "in.pdf" 200).result =
      .error (.otherError "OSError" "No space left on device") ∧
    (convert_pdf_to_pptx envSaveMidWrite "in.pdf" 200).dest = some .truncated ∧
    (convert_pdf_to_pptx envSaveMidWrite "in.pdf" 200).dest ≠ none := by
  exact ⟨rfl, rfl, by decide⟩

/-- C7 witness: a permission error at the open of the destination is
re-raised as-is after all pages were embedded, and leaves nothing at the
destination. -/
theorem save_failure_propagates_cause_witness :
    (convert_pdf_to_pptx envSaveFail "in.pdf" 200).result =
      .error (.permissionError "Permission denied: out.pptx") ∧
    (convert_pdf_to_pptx envSaveFail "in.pdf" 200).dest = none :=
  (save_failure_propagates_cause envSaveFail "in.pdf" 200
    [Image.mk [0], Image.mk [1]] (.permissionError "Permission denied: out.pptx")
    rfl rfl rfl (fun _ => rfl) (fun _ => rfl) (fun _ => rfl)).1 rfl

/-- C8: Two successful runs over page lists of the same length (same
document, possibly different pixel output from the rasterizer) produce the
same slide count, the same canvas, and identical per-slide geometry; only
pixel content can differ. -/
theorem assembly_deterministic_geometry (env1 env2 : Env) (p1 p2 : String) (dpi : Int)
    (imgs1 imgs2 : List Image)
    (he1 : env1.inputExists = true) (hf1 : env1.inputIsFile = true)
    (hr1 : env1.rasterize dpi = .ok imgs1)
    (him1 : ∀ i, env1.imgSaveFail i = none)
    (hsl1 : ∀ i, env1.addSlideFail i = none) (hpc1 : ∀ i, env1.addPictureFail i = none)
    (hsv1 : env1.saveResult = .ok)
    (he2 : env2.inputExists = true) (hf2 : env2.inputIsFile = true)
    (hr2 : env2.rasterize dpi = .ok imgs2)
    (him2 : ∀ i, env2.imgSaveFail i = none)
    (hsl2 : ∀ i, env2.addSlideFail i = none) (hpc2 : ∀ i, env2.addPictureFail i = none)
    (hsv2 : env2.saveResult = .ok)
    (hlen : imgs1.length = imgs2.length) :
    ∃ prs1 prs2,
      (convert_pdf_to_pptx env1 p1 dpi).dest = some (DestFile.full prs1) ∧
      (convert_pdf_to_pptx env2 p2 dpi).dest = some (DestFile.full prs2) ∧
      prs1.slides.length = prs2.slides.length ∧
      prs1.slideWidth = prs2.slideWidth ∧ prs1.slideHeight = prs2.slideHeight ∧
      prs1.slides.map slideGeom = prs2.slides.map slideGeom := by
  rw [convert_ok env1 p1 dpi imgs1 he1 hf1 hr1 him1 hsl1 hpc1 hsv1,
      convert_ok env2 p2 dpi imgs2 he2 hf2 hr2 him2 hsl2 hpc2 hsv2]
  refine ⟨_, _, rfl, rfl, by simp [hlen], rfl, rfl, ?_⟩
  rw [map_slideGeom_slideOf, map_slideGeom_slideOf, hlen]

/-- C8 witness: two runs whose rasterizers return different pixel data for
the same two pages agree on count and geometry. -/
theorem assembly_deterministic_geometry_witness :
    ∃ prs1 prs2,
      (convert_pdf_to_pptx envOk "in.pdf" 200).dest = some (DestFile.full prs1) ∧
      (convert_pdf_to_pptx envOk2 "in.pdf" 200).dest = some (DestFile.full prs2) ∧
      prs1.slides.length = prs2.slides.length ∧
      prs1.slideWidth = prs2.slideWidth ∧ prs1.slideHeight = prs2.slideHeight ∧
      prs1.slides.map slideGeom = prs2.slides.map slideGeom :=
  assembly_deterministic_geometry envOk envOk2 "in.pdf" "in.pdf" 200
    [Image.mk [0], Image.mk [1]] [Image.mk [7], Image.mk [8]]
    rfl rfl rfl (fun _ => rfl) (fun _ => rfl) (fun _ => rfl) rfl
    rfl rfl rfl (fun _ => rfl) (fun _ => rfl) (fun _ => rfl) rfl rfl

/-- C9: The converter never validates dpi: for every integer dpi, zero and
negative included, the value is forwarded unchanged to the rasterization
capability, a capability failure surfaces only as the generic wrapped
rasterization error, and the run's result, destination and disk depend on
dpi only through the capability's answer. -/
theorem dpi_unvalidated_forwarded (env : Env) (p : String) (dpi : Int)
    (he : env.inputExists = true) (hf : env.inputIsFile = true) :
    Event.rasterCall dpi ∈ (convert_pdf_to_pptx env p dpi).trace ∧
    (∀ e, env.rasterize dpi = .error e →
      (convert_pdf_to_pptx env p dpi).result =
        .error (.runtimeError ("Failed to convert PDF pages: " ++ e.str) e)) ∧
    (∀ dpi2, env.rasterize dpi = env.rasterize dpi2 →
      (convert_pdf_to_pptx env p dpi).result = (convert_pdf_to_pptx env p dpi2).result ∧
      (convert_pdf_to_pptx env p dpi).dest = (convert_pdf_to_pptx env p dpi2).dest ∧
      (convert_pdf_to_pptx env p dpi).disk = (convert_pdf_to_pptx env p dpi2).disk) := by
  refine ⟨?_, ?_, ?_⟩
  · unfold convert_pdf_to_pptx
    rw [he, hf]
    simp only [validateInput, Bool.not_true, Bool.false_eq_true, if_false]
    cases hr : env.rasterize dpi with
    | error e => simp
    | ok imgs =>
      obtain ⟨t, ht⟩ := embedPages_trace_mono env (Inches 10000) (Inches 5625) imgs 1
        { prs := { defaultPresentation with
                     slideWidth := Inches 10000, slideHeight := Inches 5625 },
          disk := [],
          trace := [Event.statCheck, Event.rasterCall dpi, Event.setWidth (Inches 10000),
                    Event.setHeight (Inches 5625)] }
      rcases hE : embedPages env (Inches 10000) (Inches 5625) 1 imgs
        { prs := { defaultPresentation with
                     slideWidth := Inches 10000, slideHeight := Inches 5625 },
          disk := [],
          trace := [Event.statCheck, Event.rasterCall dpi, Event.setWidth (Inches 10000),
                    Event.setHeight (Inches 5625)] } with ⟨st, oe⟩
      rw [hE] at ht
      dsimp only
      rw [hE]
      have hmem : Event.rasterCall dpi ∈ st.trace := by
        rw [show st.trace = (st, oe).1.trace from rfl, ht]
        exact List.mem_append_left _ (by simp)
      cases oe with
      | some e => exact hmem
      | none =>
        cases env.saveResult with
        | ok => exact List.mem_append_left _ hmem
        | failOpen e2 => exact List.mem_append_left _ hmem
        | failMidWrite e2 => exact List.mem_append_left _ hmem
  · intro e hr
    unfold convert_pdf_to_pptx
    rw [he, hf]
    simp [validateInput, hr]
  · intro dpi2 hsame
    unfold convert_pdf_to_pptx
    rw [he, hf]
    simp only [validateInput, Bool.not_true, Bool.false_eq_true, if_false]
    rw [hsame]
    cases hr2 : env.rasterize dpi2 with
    | error e => exact ⟨rfl, rfl, rfl⟩
    | ok imgs =>
      dsimp only
      have hind := embedPages_trace_indep env (Inches 10000) (Inches 5625) imgs 1
        { prs := { slideWidth := Inches 10000, slideHeight := Inches 5625,
                   slides := defaultPresentation.slides },
          disk := [],
          trace := [Event.statCheck, Event.rasterCall dpi, Event.setWidth (Inches 10000),
                    Event.setHeight (Inches 5625)] }
        { prs := { slideWidth := Inches 10000, slideHeight := Inches 5625,
                   slides := defaultPresentation.slides },
          disk := [],
          trace := [Event.statCheck, Event.rasterCall dpi2, Event.setWidth (Inches 10000),
                    Event.setHeight (Inches 5625)] } rfl rfl
      rcases h1 : embedPages env (Inches 10000) (Inches 5625) 1 imgs
        { prs := { slideWidth := Inches 10000, slideHeight := Inches 5625,
                   slides := defaultPresentation.slides },
          disk := [],
          trace := [Event.statCheck, Event.rasterCall dpi, Event.setWidth (Inches 10000),
                    Event.setHeight (Inches 5625)] } with ⟨st1, oe1⟩
      rcases h2 : embedPages env (Inches 10000) (Inches 5625) 1 imgs
        { prs := { slideWidth := Inches 10000, slideHeight := Inches 5625,
                   slides := defaultPresentation.slides },
          disk := [],
          trace := [Event.statCheck, Event.rasterCall dpi2, Event.setWidth (Inches 10000),
                    Event.setHeight (Inches 5625)] } with ⟨st2, oe2⟩
      rw [h1] at hind
      rw [h2] at hind
      dsimp only at hind
      obtain ⟨hprs, hdisk, hoe⟩ := hind
      cases oe1 with
      | some e =>
        cases hoe
        exact ⟨rfl, rfl, hdisk⟩
      | none =>
        cases hoe
        cases env.saveResult with
        | ok =>
          refine ⟨rfl, ?_, hdisk⟩
          show some (DestFile.full st1.prs) = some (DestFile.full st2.prs)
          rw [hprs]
        | failOpen e2 => exact ⟨rfl, rfl, hdisk⟩
        | failMidWrite e2 => exact ⟨rfl, rfl, hdisk⟩

/-- C9 witness: a negative dpi is forwarded unchanged and its failure is
the generic wrapped rasterization error. -/
theorem dpi_unvalidated_forwarded_witness :
    Event.rasterCall (-5) ∈ (convert_pdf_to_pptx envRasterFail "in.pdf" (-5)).trace ∧
    (convert_pdf_to_pptx envRasterFail "in.pdf" (-5)).result =
      .error (.runtimeError
        ("Failed to convert PDF pages: " ++
          (PyExc.otherError "PDFPageCountError" "Unable to get page count.").str)
        (.otherError "PDFPageCountError" "Unable to get page count.")) :=
  ⟨(dpi_unvalidated_forwarded envRasterFail "in.pdf" (-5) rfl rfl).1,
   (dpi_unvalidated_forwarded envRasterFail "in.pdf" (-5) rfl rfl).2.1
     (.otherError "PDFPageCountError" "Unable to get page count.") rfl⟩

/-- C10: A zero-page rasterization still succeeds: the loop runs zero
times, no temporary file event ever occurs, and a presentation with zero
slides on the fixed 10in by 5.625in canvas is written to the
destination. -/
theorem zero_pages_succeeds (env : Env) (p : String) (dpi : Int)
    (he : env.inputExists = true) (hf : env.inputIsFile = true)
    (hr : env.rasterize dpi = .ok []) (hsv : env.saveResult = .ok) :
    convert_pdf_to_pptx env p dpi =
      { result := .ok (),
        dest := some (.full { slideWidth := Inches 10000, slideHeight := Inches 5625,
                              slides := [] }),
        disk := [],
        trace := [Event.statCheck, Event.rasterCall dpi, Event.setWidth (Inches 10000),
                  Event.setHeight (Inches 5625), Event.prsSave] } ∧
    ∀ q, Event.imgSave q ∉ (convert_pdf_to_pptx env p dpi).trace := by
  have h : convert_pdf_to_pptx env p dpi =
      { result := .ok (),
        dest := some (.full { slideWidth := Inches 10000, slideHeight := Inches 5625,
                              slides := [] }),
        disk := [],
        trace := [Event.statCheck, Event.rasterCall dpi, Event.setWidth (Inches 10000),
                  Event.setHeight (Inches 5625), Event.prsSave] } := by
    unfold convert_pdf_to_pptx
    rw [he, hf]
    simp only [validateInput, Bool.not_true, Bool.false_eq_true, if_false, hr]
    try dsimp only
    rw [show embedPages env (Inches 10000) (Inches 5625) 1 []
        { prs := { defaultPresentation with
                     slideWidth := Inches 10000, slideHeight := Inches 5625 },
          disk := [],
          trace := [Event.statCheck, Event.rasterCall dpi, Event.setWidth (Inches 10000),
                    Event.setHeight (Inches 5625)] } =
        ({ prs := { defaultPresentation with
                      slideWidth := Inches 10000, slideHeight := Inches 5625 },
           disk := [],
           trace := [Event.statCheck, Event.rasterCall dpi, Event.setWidth (Inches 10000),
                     Event.setHeight (Inches 5625)] }, none) from rfl]
    rw [hsv]
    simp [defaultPresentation]
  refine ⟨h, ?_⟩
  rw [h]
  intro q
  simp

/-- C10 witness: a concrete zero-page conversion. -/
theorem zero_pages_succeeds_witness :
    convert_pdf_to_pptx envZero "in.pdf" 200 =
      { result := .ok (),
        dest := some (.full { slideWidth := Inches 10000, slideHeight := Inches 5625,
                              slides := [] }),
        disk := [],
        trace := [Event.statCheck, Event.rasterCall 200, Event.setWidth (Inches 10000),
                  Event.setHeight (Inches 5625), Event.prsSave] } ∧
    ∀ q, Event.imgSave q ∉ (convert_pdf_to_pptx envZero "in.pdf" 200).trace :=
  zero_pages_succeeds envZero "in.pdf" 200 rfl rfl rfl rfl

end PdfToPptx
